import Mathlib

/-!
# The textfile widget (modules/textfile/widget.go)

A shallow embedding of the text-file panel: the two renders (`plainText`,
`formattedText`), `display`, and the watcher set-up and event loop of
`watchForFileChanges`.

The widget is glue code around collaborators that live outside this file (the
operating system, the highlighting catalog, the polling watcher, the host
dashboard).  Every collaborator is a field of `Env`, typed after its Go
signature; the widget functions are translated statement by statement and
return, next to their Go result, the ordered list of calls they made to the
outside world.
-/

namespace Textfile

/-! ## Go values -/

/-- One byte. -/
abbrev Byte := Fin 256

/-- A Go string (and a Go byte slice): a sequence of bytes, not necessarily UTF-8. -/
abbrev GoString := List Byte

/-- The bytes of a string literal of the source (UTF-8 encoding). -/
def lit (s : String) : GoString :=
  s.toList.flatMap fun c => (String.utf8EncodeChar c).map fun b => Fin.ofNat b.toNat

/-- The system error numbers the file operations of the widget can meet. -/
inductive Errno where
  | ENOENT
  | EACCES
  | EISDIR
  deriving DecidableEq, Repr

/-- The text of a system error number (Go: syscall.Errno.Error). -/
def Errno.Error : Errno → GoString
  | .ENOENT => lit "no such file or directory"
  | .EACCES => lit "permission denied"
  | .EISDIR => lit "is a directory"

/-- A Go error value: a path error of package os, or an error made from a message. -/
inductive GoError where
  | pathError (Op : GoString) (Path : GoString) (Err : Errno)
  | errorString (s : GoString)
  deriving DecidableEq, Repr

/-- The method Error() of a Go error. A path error prints as "op path: cause". -/
def GoError.Error : GoError → GoString
  | .pathError op path err => op ++ lit " " ++ path ++ lit ": " ++ err.Error
  | .errorString s => s

/-- An open file handle (Go: *os.File). -/
structure File where
  name : GoString
  fd : Nat
  deriving DecidableEq, Repr

/-! ## The highlighting catalog (package chroma), as far as the widget sees it -/

/-- A lexer of the catalog, known by its name. -/
structure Lexer where
  name : String
  deriving DecidableEq, Repr

/-- A colour style of the catalog, known by its name. -/
structure Style where
  name : String
  deriving DecidableEq, Repr

/-- An output formatter of the catalog, known by its name. -/
structure Formatter where
  name : String
  deriving DecidableEq, Repr

/-- A token: a token class and the text it covers. -/
structure Token where
  type : Nat
  value : GoString
  deriving DecidableEq, Repr

/-- The token stream handed from the lexer to the formatter. -/
abbrev Iterator := List Token

/-! ## The widget and its collaborators -/

/-- The settings the widget reads. -/
structure Settings where
  format : Bool
  formatStyle : GoString
  deriving DecidableEq, Repr

/-- The widget state the functions of widget.go read: the source list and the
index of the current source (MultiSourceWidget), the rectangle of the view
(x, y, width, height) and the settings. -/
structure Widget where
  Sources : List GoString
  Idx : Int
  rect : Int × Int × Int × Int
  settings : Settings
  deriving DecidableEq, Repr

/-- Everything widget.go calls and does not define. Go functions with two results
are pairs; a result that is nil or a value is an Option; os.Open, which returns
either a file or an error, is an Except. -/
structure Env where
  /-- The method CurrentSource of the embedded MultiSourceWidget. -/
  CurrentSource : List GoString → Int → GoString
  /-- The method SigilStr of the common settings: (len, pos, width). -/
  SigilStr : Int → Int → Int → GoString
  /-- The function utils.ExpandHomeDir: the path and the error, both returned. -/
  ExpandHomeDir : GoString → GoString × Option GoError
  /-- The function os.Open. -/
  Open : GoString → Except GoError File
  /-- The function ioutil.ReadAll on an open file: the bytes read and the error. -/
  ReadAll : File → GoString × Option GoError
  /-- The function lexers.Match; none is the nil lexer. -/
  lexersMatch : GoString → Option Lexer
  lexersFallback : Lexer
  /-- The function styles.Get; none is the nil style. -/
  stylesGet : GoString → Option Style
  stylesFallback : Style
  /-- The function formatters.Get; none is the nil formatter. -/
  formattersGet : GoString → Option Formatter
  formattersFallback : Formatter
  /-- The method Tokenise of a lexer: the token stream and the error. -/
  Tokenise : Lexer → GoString → Iterator × Option GoError
  /-- The method Format of a formatter: the bytes written and the error. -/
  Format : Formatter → Style → Iterator → GoString × Option GoError
  /-- The function tview.TranslateANSI. -/
  TranslateANSI : GoString → GoString
  /-- The method Add of the watcher: nil, or the error of a failed registration. -/
  watchAdd : GoString → Option GoError
  /-- The method Start of the watcher, given the poll interval in nanoseconds:
  the error that keeps the watcher from running, or nil when it runs (Start then
  returns only once the watcher is closed). -/
  watchStart : Nat → Option GoError
  /-- The error value watcher.ErrWatchedFileDeleted. -/
  ErrWatchedFileDeleted : GoError

/-- A call that leaves the widget: a line on standard output, a file-system
access, or a repaint of the panel. -/
inductive Call where
  | Println (line : GoString)
  | Open (name : GoString)
  | ReadAll (file : File)
  | ReadFile (filename : GoString)
  | Redraw (title : GoString) (text : GoString) (wrap : Bool)
  deriving DecidableEq, Repr

/-- Whether a call touches the file system. -/
def Call.isFileAccess : Call → Bool
  | .Open _ => true
  | .ReadAll _ => true
  | .ReadFile _ => true
  | _ => false

/-- Whether a call is a repaint of the panel. -/
def Call.isRedraw : Call → Bool
  | .Redraw _ _ _ => true
  | _ => false

/-- Whether a call writes to the outside world (standard output or the panel). -/
def Call.isOutput : Call → Bool
  | .Println _ => true
  | .Redraw _ _ _ => true
  | _ => false

/-- The function ioutil.ReadFile of the standard library: open the named file,
read it to the end, close it. -/
def ReadFile (env : Env) (filename : GoString) : GoString × Option GoError :=
  match env.Open filename with
  | .error err => ([], some err)
  | .ok f => env.ReadAll f

/-- The conversion string(b) of a byte slice: the same bytes. -/
def string (b : GoString) : GoString := b

/-- The method formattedText (widget.go 89-118): the rendered text and the calls made. -/
def formattedText (env : Env) (widget : Widget) : GoString × List Call :=
  let filePath := (env.ExpandHomeDir (env.CurrentSource widget.Sources widget.Idx)).1
  match env.Open filePath with
  | .error err => (err.Error, [Call.Open filePath])
  | .ok file =>
    let lexer :=
      match env.lexersMatch filePath with
      | none => env.lexersFallback
      | some l => l
    let style :=
      match env.stylesGet widget.settings.formatStyle with
      | none => env.stylesFallback
      | some s => s
    let formatter :=
      match env.formattersGet (lit "terminal256") with
      | none => env.formattersFallback
      | some f => f
    let contents := (env.ReadAll file).1
    let iterator := (env.Tokenise lexer (string contents)).1
    let buf := (env.Format formatter style iterator).1
    (env.TranslateANSI buf, [Call.Open filePath, Call.ReadAll file])

/-- The method plainText (widget.go 120-130): the rendered text and the calls made. -/
def plainText (env : Env) (widget : Widget) : GoString × List Call :=
  let filePath := (env.ExpandHomeDir (env.CurrentSource widget.Sources widget.Idx)).1
  let calls := [Call.Println (filePath ++ lit "\n"), Call.ReadFile filePath]
  match ReadFile env filePath with
  | (_, some err) => (err.Error, calls)
  | (text, none) => (string text, calls)

/-- The value both renders bind to their variable filePath: the first result of
ExpandHomeDir on the current source, whatever the second result is. -/
def filePath (env : Env) (widget : Widget) : GoString :=
  (env.ExpandHomeDir (env.CurrentSource widget.Sources widget.Idx)).1

/-- The method display (widget.go 70-83): the calls made, the last of which is Redraw. -/
def display (env : Env) (widget : Widget) : List Call :=
  let title := lit "[green]" ++ env.CurrentSource widget.Sources widget.Idx ++ lit "[white]"
  let width := widget.rect.2.2.1
  let text := env.SigilStr widget.Sources.length widget.Idx width ++ lit "\n"
  let body := if widget.settings.format then formattedText env widget else plainText env widget
  body.2 ++ [Call.Redraw title (text ++ body.1) true]

/-! ## The watcher (package watcher), as far as the widget sees it -/

/-- The kinds of file-system event the watcher tells apart. -/
inductive Op where
  | Create
  | Write
  | Remove
  | Rename
  | Chmod
  | Move
  deriving DecidableEq, Repr

/-- A file-system event: what happened, and to which path. -/
structure Event where
  Op : Op
  Path : GoString
  deriving DecidableEq, Repr

/-- The watcher: the event kinds it lets through (empty: all of them) and the
paths registered with it, in the order of registration. -/
structure Watcher where
  ops : List Op
  names : List GoString
  deriving DecidableEq, Repr

/-- The function watcher.New: no filter, nothing registered. -/
def Watcher.New : Watcher := ⟨[], []⟩

/-- The method FilterOps: from now on only events of the given kinds are sent. -/
def Watcher.FilterOps (watch : Watcher) (ops : List Op) : Watcher :=
  { watch with ops := ops }

/-- The effect of a successful Add on the watcher: the path is registered. -/
def Watcher.Add (watch : Watcher) (name : GoString) : Watcher :=
  { watch with names := watch.names ++ [name] }

/-- What the goroutine of watchForFileChanges can receive in its select. -/
inductive Msg where
  | Event (e : Event)
  | Error (err : GoError)
  | Closed
  deriving DecidableEq, Repr

/-- Modelled from the spec: the polling watcher is a third-party package and is
not among the sources. Whether the filter set by FilterOps lets an event through
(section 4.3, registration for some kinds of event only): it does when no filter
is set or when the kind of the event is in the filter. -/
def Watcher.sends (watch : Watcher) (e : Event) : Bool :=
  watch.ops.isEmpty || watch.ops.contains e.Op

/-- Whether an event takes its path away: the file is removed, renamed or moved. -/
def Op.takesAway : Op → Bool
  | .Remove => true
  | .Rename => true
  | .Move => true
  | _ => false

/-- Modelled from the spec: the polling watcher is a third-party package and is
not among the sources. What it puts on its channels for one file-system event
(section 4.3): nothing for a path that is not registered; for a registered path
that is taken away, and so is no longer accessible, an internal watcher error on
the Error channel; otherwise the event on the Event channel when the filter lets
it through, and nothing when the filter holds it back. -/
def Watcher.report (env : Env) (watch : Watcher) (e : Event) : Option Msg :=
  if e.Path ∈ watch.names then
    if e.Op.takesAway then some (.Error env.ErrWatchedFileDeleted)
    else if watch.sends e then some (.Event e)
    else none
  else none

/-- The messages the goroutine receives for a sequence of file-system events. -/
def Watcher.messages (env : Env) (watch : Watcher) (happened : List Event) : List Msg :=
  happened.filterMap (watch.report env)

/-- How many of the events are writes to a registered path. -/
def Watcher.writes (watch : Watcher) (happened : List Event) : Nat :=
  happened.countP fun e => decide (e.Op = Op.Write ∧ e.Path ∈ watch.names)

/-- What the goroutine does on a message. -/
inductive Action where
  | display
  | Fatalln (err : GoError)
  | ret
  deriving DecidableEq, Repr

/-- The goroutine of watchForFileChanges (widget.go 136-147), run on the messages
it receives, in the order it receives them: display on an event, log.Fatalln
(the process exits) on an error, return on the closed signal. With no message
left it waits in the select and does nothing. -/
def eventLoop : List Msg → List Action
  | [] => []
  | .Event _ :: rest => .display :: eventLoop rest
  | .Error err :: _ => [.Fatalln err]
  | .Closed :: _ => [.ret]

/-- The loop over the sources (widget.go 150-157): a source that does not expand
is passed over, a source that expands is added to the watcher, and the error of
a failed Add goes to log.Fatalln, which ends the process. -/
def watchEach (env : Env) : List GoString → Watcher → Except GoError Watcher
  | [], watch => .ok watch
  | source :: rest, watch =>
    match env.ExpandHomeDir source with
    | (fullPath, none) =>
      match env.watchAdd fullPath with
      | some err => .error err
      | none => watchEach env rest (watch.Add fullPath)
    | (_, some _) => watchEach env rest watch

/-- One millisecond, in nanoseconds (time.Millisecond). -/
def Millisecond : Nat := 1000000

/-- How watchForFileChanges goes: into log.Fatalln, or into a running watcher. -/
inductive Startup where
  | Fatalln (err : GoError)
  | Started (watch : Watcher)
  deriving DecidableEq, Repr

/-- The method watchForFileChanges (widget.go 132-163), without its goroutine,
which is eventLoop. -/
def watchForFileChanges (env : Env) (widget : Widget) : Startup :=
  let watch := Watcher.New.FilterOps [Op.Write]
  match watchEach env widget.Sources watch with
  | .error err => .Fatalln err
  | .ok watch =>
    match env.watchStart (Millisecond * 100) with
    | some err => .Fatalln err
    | none => .Started watch

/-- The sources that expand without error, as expanded, in configured order. -/
def expanded (env : Env) (sources : List GoString) : List GoString :=
  sources.filterMap fun source =>
    match env.ExpandHomeDir source with
    | (fullPath, none) => some fullPath
    | (_, some _) => none

/-! ## A concrete environment -/

/-- A file-system entry of the concrete environment. -/
inductive Node where
  | file (contents : GoString)
  | dir
  deriving DecidableEq, Repr

/-- The files of the concrete environment: a Go file, a text file, a file of
bytes that are not UTF-8, an empty file and a file of notes under an extension
no language has, and a directory. -/
def demoFiles : List (GoString × Node) :=
  [ (lit "/tmp/a.go", .file (lit "package main\n")),
    (lit "/tmp/b.txt", .file (lit "hello\n")),
    (lit "/tmp/blob.bin", .file [255, 0, 254, 128]),
    (lit "/tmp/empty.xyz", .file []),
    (lit "/tmp/notes.xyz", .file (lit "remember the milk\n")),
    (lit "/tmp", .dir) ]

/-- Home-directory expansion in the concrete environment: "~" and "~/..." expand
to /home/u, "~name..." does not expand, every other path is left as it is. -/
def demoExpandHomeDir (path : GoString) : GoString × Option GoError :=
  match path with
  | [] => (path, none)
  | c :: rest =>
    if c ≠ 126 then (path, none)
    else
      match rest with
      | [] => (lit "/home/u", none)
      | d :: _ =>
        if d ≠ 47 ∧ d ≠ 92 then
          ([], some (.errorString (lit "cannot expand user-specific home dir")))
        else (lit "/home/u" ++ rest, none)

/-- The concrete environment: a small file system; a catalog that knows the Go
lexer and the plain-text lexer, two styles and the terminal256 formatter; a lexer that makes one token of
a non-empty text and none of an empty one; a formatter that writes each token
between a colour code and a reset code. -/
def demoEnv : Env where
  CurrentSource := fun sources idx => sources.getD idx.toNat []
  SigilStr := fun len pos _ =>
    if len ≤ 1 then []
    else List.replicate pos.toNat 95 ++ [42] ++ List.replicate (len - 1 - pos).toNat 95
  ExpandHomeDir := demoExpandHomeDir
  Open := fun name =>
    match demoFiles.lookup name with
    | none => .error (.pathError (lit "open") name .ENOENT)
    | some _ => .ok ⟨name, 3⟩
  ReadAll := fun f =>
    match demoFiles.lookup f.name with
    | some (.file contents) => (contents, none)
    | some .dir => ([], some (.pathError (lit "read") f.name .EISDIR))
    | none => ([], some (.pathError (lit "read") f.name .ENOENT))
  lexersMatch := fun name =>
    if (lit ".go").isSuffixOf name then some ⟨"Go"⟩
    else if (lit ".txt").isSuffixOf name then some ⟨"plaintext"⟩
    else none
  lexersFallback := ⟨"fallback"⟩
  stylesGet := fun name =>
    if name = lit "monokai" then some ⟨"monokai"⟩
    else if name = lit "swapoff" then some ⟨"swapoff"⟩
    else none
  stylesFallback := ⟨"swapoff"⟩
  formattersGet := fun name => if name = lit "terminal256" then some ⟨"terminal256"⟩ else none
  formattersFallback := ⟨"noop"⟩
  Tokenise := fun _ text => (if text = [] then [] else [⟨0, text⟩], none)
  Format := fun formatter style it =>
    (it.flatMap fun t =>
      if formatter.name = "noop" then t.value
      else [27] ++ lit (if style.name = "monokai" then "[38;5;231m" else "[38;5;15m")
        ++ t.value ++ [27] ++ lit "[0m", none)
  TranslateANSI := fun text => text
  watchAdd := fun name =>
    match demoFiles.lookup name with
    | none => some (.pathError (lit "lstat") name .ENOENT)
    | some _ => none
  watchStart := fun d => if d < 1 then some (.errorString (lit "error: duration is less than 1ns")) else none
  ErrWatchedFileDeleted := .errorString (lit "error: watched file or folder deleted")

/-- A widget over the given sources, showing the first one. -/
def demoWidget (sources : List GoString) (format : Bool) (formatStyle : GoString) : Widget :=
  { Sources := sources, Idx := 0, rect := (0, 0, 40, 10),
    settings := { format := format, formatStyle := formatStyle } }

/-- The widget of the scenario: sources /tmp/a.go and /tmp/b.txt, the first one
current, highlighting on, a style name the catalog does not know. -/
def scenarioWidget : Widget :=
  demoWidget [lit "/tmp/a.go", lit "/tmp/b.txt"] true (lit "unknown-style")

/-- A widget on a file of notes no lexer matches, highlighting on. -/
def notesWidget : Widget := demoWidget [lit "/tmp/notes.xyz"] true (lit "monokai")

/-- A widget on the empty file, highlighting on. -/
def emptyFileWidget : Widget := demoWidget [lit "/tmp/empty.xyz"] true (lit "monokai")

/-- A widget whose current source is a directory, highlighting on. -/
def dirWidget : Widget := demoWidget [lit "/tmp"] true (lit "monokai")

/-- A widget whose current source names the home directory of another user,
which does not expand. -/
def otherUserWidget (format : Bool) : Widget :=
  demoWidget [lit "~bob/notes.txt"] format (lit "monokai")

/-- A widget with two sources, the first one current, highlighting off. -/
def plainWidget : Widget := demoWidget [lit "/tmp/b.txt", lit "/tmp/a.go"] false []

/-- A widget over a file that does not exist and one that does. -/
def goneFirstWidget : Widget := demoWidget [lit "/tmp/gone.txt", lit "/tmp/b.txt"] false []

/-- The watcher start-up leaves for the widget over /tmp/b.txt and /tmp/a.go. -/
def demoWatcher : Watcher := ⟨[Op.Write], [lit "/tmp/b.txt", lit "/tmp/a.go"]⟩

/-- The events of a run in which no source is taken away: two writes, one of them
to the source that is not current, a chmod and a create on the sources, and a
write and a remove on a path that is not registered. -/
def demoQuiet : List Event :=
  [ ⟨.Write, lit "/tmp/b.txt"⟩, ⟨.Chmod, lit "/tmp/a.go"⟩, ⟨.Write, lit "/tmp/a.go"⟩,
    ⟨.Create, lit "/tmp/b.txt"⟩, ⟨.Write, lit "/tmp/blob.bin"⟩, ⟨.Remove, lit "/tmp/blob.bin"⟩ ]

/-- The events of a run in which the source that is not current is removed
between two writes to the current one. -/
def demoRemoved : List Event :=
  [ ⟨.Write, lit "/tmp/b.txt"⟩, ⟨.Remove, lit "/tmp/a.go"⟩, ⟨.Write, lit "/tmp/b.txt"⟩ ]

/-! ## Shared lemmas -/

theorem pathError_text_ne_nil (op path : GoString) (errno : Errno) :
    (GoError.pathError op path errno).Error ≠ [] := by
  have h : lit " " ≠ [] := by decide
  intro hnil
  simp only [GoError.Error, List.append_eq_nil, List.append_assoc] at hnil
  exact h hnil.2.1

theorem ReadFile_open_error (env : Env) (name : GoString) (err : GoError)
    (h : env.Open name = .error err) : ReadFile env name = ([], some err) := by
  simp [ReadFile, h]

theorem formattedText_open_error (env : Env) (widget : Widget) (err : GoError)
    (h : env.Open (filePath env widget) = .error err) :
    formattedText env widget = (err.Error, [Call.Open (filePath env widget)]) := by
  unfold filePath at h
  simp [formattedText, filePath, h]

theorem plainText_read_error (env : Env) (widget : Widget) (text : GoString) (err : GoError)
    (h : ReadFile env (filePath env widget) = (text, some err)) :
    plainText env widget =
      (err.Error, [Call.Println (filePath env widget ++ lit "\n"),
        Call.ReadFile (filePath env widget)]) := by
  unfold filePath at h
  simp [plainText, filePath, h]

theorem plainText_read_ok (env : Env) (widget : Widget) (text : GoString)
    (h : ReadFile env (filePath env widget) = (text, none)) :
    plainText env widget =
      (text, [Call.Println (filePath env widget ++ lit "\n"),
        Call.ReadFile (filePath env widget)]) := by
  unfold filePath at h
  simp [plainText, filePath, h, string]

theorem formattedText_open_ok (env : Env) (widget : Widget) (file : File)
    (h : env.Open (filePath env widget) = .ok file) :
    formattedText env widget =
      (env.TranslateANSI
        (env.Format ((env.formattersGet (lit "terminal256")).getD env.formattersFallback)
          ((env.stylesGet widget.settings.formatStyle).getD env.stylesFallback)
          (env.Tokenise ((env.lexersMatch (filePath env widget)).getD env.lexersFallback)
            (env.ReadAll file).1).1).1,
        [Call.Open (filePath env widget), Call.ReadAll file]) := by
  unfold filePath at h
  simp only [formattedText, filePath, h, string]
  cases env.lexersMatch (env.ExpandHomeDir (env.CurrentSource widget.Sources widget.Idx)).1 <;>
    cases env.stylesGet widget.settings.formatStyle <;>
    cases env.formattersGet (lit "terminal256") <;> rfl

/-! ## The renders -/

/-- C1: when ioutil.ReadFile succeeds on the resolved path of the current source,
plainText returns exactly the bytes read: the same list of bytes, hence the same
length and order, whatever the bytes are. -/
theorem plainText_returns_file_bytes (env : Env) (widget : Widget) (bytes : GoString)
    (hread : ReadFile env (filePath env widget) = (bytes, none)) :
    (plainText env widget).1 = bytes := by
  rw [plainText_read_ok env widget bytes hread]

theorem plainText_returns_file_bytes_witness :
    ReadFile demoEnv (filePath demoEnv (demoWidget [lit "/tmp/blob.bin"] false []))
        = ([255, 0, 254, 128], none)
      ∧ (plainText demoEnv (demoWidget [lit "/tmp/blob.bin"] false [])).1 = [255, 0, 254, 128] :=
  ⟨by decide, plainText_returns_file_bytes demoEnv _ _ (by decide)⟩

/-- C2: when the resolved path of the current source does not exist (os.Open
fails with the path error "open path: no such file or directory"), both
formattedText and plainText return the text of that error, and that text is not
the empty string. -/
theorem render_missing_file_is_error_text (env : Env) (widget : Widget)
    (hmissing : env.Open (filePath env widget)
      = .error (.pathError (lit "open") (filePath env widget) .ENOENT)) :
    (formattedText env widget).1
        = lit "open" ++ lit " " ++ filePath env widget ++ lit ": " ++ lit "no such file or directory"
      ∧ (plainText env widget).1 = (formattedText env widget).1
      ∧ (formattedText env widget).1 ≠ []
      ∧ (plainText env widget).1 ≠ [] := by
  have hf := formattedText_open_error env widget _ hmissing
  have hp := plainText_read_error env widget [] _ (ReadFile_open_error env _ _ hmissing)
  have hne := pathError_text_ne_nil (lit "open") (filePath env widget) .ENOENT
  rw [hf, hp]
  exact ⟨rfl, rfl, hne, hne⟩

theorem render_missing_file_is_error_text_witness :
    demoEnv.Open (filePath demoEnv (demoWidget [lit "/tmp/gone.txt"] true []))
        = .error (.pathError (lit "open")
            (filePath demoEnv (demoWidget [lit "/tmp/gone.txt"] true [])) .ENOENT)
      ∧ (formattedText demoEnv (demoWidget [lit "/tmp/gone.txt"] true [])).1
          = lit "open" ++ lit " " ++ filePath demoEnv (demoWidget [lit "/tmp/gone.txt"] true [])
              ++ lit ": " ++ lit "no such file or directory"
      ∧ (plainText demoEnv (demoWidget [lit "/tmp/gone.txt"] true [])).1
          = (formattedText demoEnv (demoWidget [lit "/tmp/gone.txt"] true [])).1
      ∧ (formattedText demoEnv (demoWidget [lit "/tmp/gone.txt"] true [])).1 ≠ []
      ∧ (plainText demoEnv (demoWidget [lit "/tmp/gone.txt"] true [])).1 ≠ [] :=
  ⟨rfl, render_missing_file_is_error_text demoEnv _ rfl⟩

/-- C6: on a file that opens, formattedText renders with the lexer the catalog
matches to the path, or the fallback lexer when there is none; with the style the
catalog has under settings.formatStyle, or the fallback style when there is none;
with the terminal256 formatter, or the fallback formatter when there is none.
When the style name is unknown the render is the render under the fallback style,
and equals the render of the same widget under any name of the fallback style. -/
theorem formattedText_two_tier_fallback (env : Env) (widget : Widget) (file : File)
    (hopen : env.Open (filePath env widget) = .ok file) :
    (formattedText env widget).1
        = env.TranslateANSI
            (env.Format ((env.formattersGet (lit "terminal256")).getD env.formattersFallback)
              ((env.stylesGet widget.settings.formatStyle).getD env.stylesFallback)
              (env.Tokenise ((env.lexersMatch (filePath env widget)).getD env.lexersFallback)
                (env.ReadAll file).1).1).1
      ∧ (env.stylesGet widget.settings.formatStyle = none →
          (formattedText env widget).1
              = env.TranslateANSI
                  (env.Format ((env.formattersGet (lit "terminal256")).getD env.formattersFallback)
                    env.stylesFallback
                    (env.Tokenise
                      ((env.lexersMatch (filePath env widget)).getD env.lexersFallback)
                      (env.ReadAll file).1).1).1
            ∧ ∀ name : GoString, env.stylesGet name = some env.stylesFallback →
                formattedText env
                    { widget with settings := { widget.settings with formatStyle := name } }
                  = formattedText env widget) := by
  refine ⟨by rw [formattedText_open_ok env widget file hopen], fun hstyle => ⟨?_, ?_⟩⟩
  · rw [formattedText_open_ok env widget file hopen, hstyle]; rfl
  · intro name hname
    have hopen2 : env.Open (filePath env
        { widget with settings := { widget.settings with formatStyle := name } }) = .ok file :=
      hopen
    rw [formattedText_open_ok env widget file hopen, formattedText_open_ok env _ file hopen2]
    simp only [hstyle, hname, filePath, Option.getD]

theorem formattedText_two_tier_fallback_witness :
    demoEnv.Open (filePath demoEnv scenarioWidget) = .ok ⟨lit "/tmp/a.go", 3⟩
      ∧ (formattedText demoEnv scenarioWidget).1
          = demoEnv.TranslateANSI
              (demoEnv.Format
                ((demoEnv.formattersGet (lit "terminal256")).getD demoEnv.formattersFallback)
                ((demoEnv.stylesGet scenarioWidget.settings.formatStyle).getD
                  demoEnv.stylesFallback)
                (demoEnv.Tokenise
                  ((demoEnv.lexersMatch (filePath demoEnv scenarioWidget)).getD
                    demoEnv.lexersFallback)
                  (demoEnv.ReadAll ⟨lit "/tmp/a.go", 3⟩).1).1).1
      ∧ (demoEnv.stylesGet scenarioWidget.settings.formatStyle = none →
          (formattedText demoEnv scenarioWidget).1
              = demoEnv.TranslateANSI
                  (demoEnv.Format
                    ((demoEnv.formattersGet (lit "terminal256")).getD
                      demoEnv.formattersFallback)
                    demoEnv.stylesFallback
                    (demoEnv.Tokenise
                      ((demoEnv.lexersMatch (filePath demoEnv scenarioWidget)).getD
                        demoEnv.lexersFallback)
                      (demoEnv.ReadAll ⟨lit "/tmp/a.go", 3⟩).1).1).1
            ∧ ∀ name : GoString, demoEnv.stylesGet name = some demoEnv.stylesFallback →
                formattedText demoEnv
                    { scenarioWidget with
                      settings := { scenarioWidget.settings with formatStyle := name } }
                  = formattedText demoEnv scenarioWidget) :=
  ⟨rfl, formattedText_two_tier_fallback demoEnv scenarioWidget ⟨lit "/tmp/a.go", 3⟩ rfl⟩

/-- C7, as stated, fails: the empty file /tmp/empty.xyz opens and reads without
error, no lexer matches its path, and formattedText returns the empty string. -/
theorem formattedText_empty_file_is_empty :
    demoEnv.Open (filePath demoEnv emptyFileWidget) = .ok ⟨lit "/tmp/empty.xyz", 3⟩
      ∧ demoEnv.ReadAll ⟨lit "/tmp/empty.xyz", 3⟩ = ([], none)
      ∧ demoEnv.lexersMatch (filePath demoEnv emptyFileWidget) = none
      ∧ (formattedText demoEnv emptyFileWidget).1 = [] :=
  ⟨rfl, by decide, by decide, by decide⟩

/-- C7, amended: for every file that opens and reads without error and whose
path no lexer matches, formattedText tokenises the contents with the fallback
lexer and returns, as it is, what TranslateANSI makes of the formatter output for
those tokens. It has no guard of its own against an empty result: the result is
the empty string exactly when that output is. -/
theorem formattedText_engages_fallback_lexer (env : Env) (widget : Widget) (file : File)
    (contents : GoString)
    (hopen : env.Open (filePath env widget) = .ok file)
    (hread : env.ReadAll file = (contents, none))
    (hmatch : env.lexersMatch (filePath env widget) = none) :
    formattedText env widget
        = (env.TranslateANSI
            (env.Format ((env.formattersGet (lit "terminal256")).getD env.formattersFallback)
              ((env.stylesGet widget.settings.formatStyle).getD env.stylesFallback)
              (env.Tokenise env.lexersFallback contents).1).1,
          [Call.Open (filePath env widget), Call.ReadAll file])
      ∧ ((formattedText env widget).1 = [] ↔
          env.TranslateANSI
            (env.Format ((env.formattersGet (lit "terminal256")).getD env.formattersFallback)
              ((env.stylesGet widget.settings.formatStyle).getD env.stylesFallback)
              (env.Tokenise env.lexersFallback contents).1).1 = []) := by
  have h := formattedText_open_ok env widget file hopen
  rw [hmatch, hread] at h
  rw [h]
  exact ⟨rfl, Iff.rfl⟩

theorem formattedText_engages_fallback_lexer_witness :
    demoEnv.Open (filePath demoEnv notesWidget) = .ok ⟨lit "/tmp/notes.xyz", 3⟩
      ∧ demoEnv.ReadAll ⟨lit "/tmp/notes.xyz", 3⟩ = (lit "remember the milk\n", none)
      ∧ demoEnv.lexersMatch (filePath demoEnv notesWidget) = none
      ∧ formattedText demoEnv notesWidget
        = (demoEnv.TranslateANSI
            (demoEnv.Format
              ((demoEnv.formattersGet (lit "terminal256")).getD demoEnv.formattersFallback)
              ((demoEnv.stylesGet notesWidget.settings.formatStyle).getD demoEnv.stylesFallback)
              (demoEnv.Tokenise demoEnv.lexersFallback (lit "remember the milk\n")).1).1,
          [Call.Open (filePath demoEnv notesWidget), Call.ReadAll ⟨lit "/tmp/notes.xyz", 3⟩])
      ∧ ((formattedText demoEnv notesWidget).1 = [] ↔
          demoEnv.TranslateANSI
            (demoEnv.Format
              ((demoEnv.formattersGet (lit "terminal256")).getD demoEnv.formattersFallback)
              ((demoEnv.stylesGet notesWidget.settings.formatStyle).getD demoEnv.stylesFallback)
              (demoEnv.Tokenise demoEnv.lexersFallback (lit "remember the milk\n")).1).1
            = []) :=
  ⟨rfl, by decide, by decide,
    formattedText_engages_fallback_lexer demoEnv notesWidget ⟨lit "/tmp/notes.xyz", 3⟩
      (lit "remember the milk\n") rfl (by decide) (by decide)⟩

/-- C8 fails in formattedText: on the directory /tmp the file opens, ioutil.ReadAll
fails with "read /tmp: is a directory", formattedText drops that error and returns
the empty string, while plainText returns the text of the error. -/
theorem formattedText_drops_read_error :
    demoEnv.Open (filePath demoEnv dirWidget) = .ok ⟨lit "/tmp", 3⟩
      ∧ demoEnv.ReadAll ⟨lit "/tmp", 3⟩
          = ([], some (.pathError (lit "read") (lit "/tmp") .EISDIR))
      ∧ (formattedText demoEnv dirWidget).1 = []
      ∧ (plainText demoEnv dirWidget).1 = lit "read /tmp: is a directory" :=
  ⟨rfl, by decide, by decide, by decide⟩

/-- C9, as stated, fails: "~bob/notes.txt" does not expand, yet both renders go
on to access the path returned with the error (the empty path), and the text they
return is that of the failed open, not that of the failed expansion. -/
theorem render_accesses_unresolved_path :
    demoEnv.ExpandHomeDir (lit "~bob/notes.txt")
        = ([], some (.errorString (lit "cannot expand user-specific home dir")))
      ∧ Call.Open [] ∈ (formattedText demoEnv (otherUserWidget true)).2
      ∧ Call.ReadFile [] ∈ (plainText demoEnv (otherUserWidget false)).2
      ∧ (formattedText demoEnv (otherUserWidget true)).1
          = lit "open : no such file or directory"
      ∧ (plainText demoEnv (otherUserWidget false)).1 = lit "open : no such file or directory"
      ∧ lit "open : no such file or directory" ≠ lit "cannot expand user-specific home dir" :=
  ⟨by decide, by decide, by decide, by decide, by decide, by decide⟩

/-- C9, amended: when the expansion of the current source fails, each render
behaves as if the expansion had succeeded with the path returned next to the
error: it accesses that path, and when opening it fails the render returns the
text of the open error as its body. -/
theorem render_after_failed_expansion (env : Env) (widget : Widget) (err openErr : GoError)
    (hexpand : (env.ExpandHomeDir (env.CurrentSource widget.Sources widget.Idx)).2 = some err)
    (hopen : env.Open (filePath env widget) = .error openErr) :
    formattedText env widget
        = formattedText
            { env with ExpandHomeDir := fun path => ((env.ExpandHomeDir path).1, none) } widget
      ∧ plainText env widget
        = plainText
            { env with ExpandHomeDir := fun path => ((env.ExpandHomeDir path).1, none) } widget
      ∧ formattedText env widget = (openErr.Error, [Call.Open (filePath env widget)])
      ∧ plainText env widget
        = (openErr.Error, [Call.Println (filePath env widget ++ lit "\n"),
            Call.ReadFile (filePath env widget)]) := by
  have _ := hexpand
  exact ⟨rfl, rfl, formattedText_open_error env widget openErr hopen,
    plainText_read_error env widget [] openErr (ReadFile_open_error env _ _ hopen)⟩

theorem render_after_failed_expansion_witness :
    (demoEnv.ExpandHomeDir
        (demoEnv.CurrentSource (otherUserWidget true).Sources (otherUserWidget true).Idx)).2
        = some (.errorString (lit "cannot expand user-specific home dir"))
      ∧ demoEnv.Open (filePath demoEnv (otherUserWidget true))
        = .error (.pathError (lit "open") [] .ENOENT)
      ∧ formattedText demoEnv (otherUserWidget true)
        = formattedText
            { demoEnv with
              ExpandHomeDir := fun path => ((demoEnv.ExpandHomeDir path).1, none) }
            (otherUserWidget true)
      ∧ plainText demoEnv (otherUserWidget true)
        = plainText
            { demoEnv with
              ExpandHomeDir := fun path => ((demoEnv.ExpandHomeDir path).1, none) }
            (otherUserWidget true)
      ∧ formattedText demoEnv (otherUserWidget true)
        = ((GoError.pathError (lit "open") [] .ENOENT).Error,
            [Call.Open (filePath demoEnv (otherUserWidget true))])
      ∧ plainText demoEnv (otherUserWidget true)
        = ((GoError.pathError (lit "open") [] .ENOENT).Error,
            [Call.Println (filePath demoEnv (otherUserWidget true) ++ lit "\n"),
              Call.ReadFile (filePath demoEnv (otherUserWidget true))]) :=
  ⟨by decide, rfl,
    render_after_failed_expansion demoEnv (otherUserWidget true)
      (.errorString (lit "cannot expand user-specific home dir"))
      (.pathError (lit "open") [] .ENOENT) (by decide) rfl⟩

/-! ## display -/

theorem formattedText_no_output (env : Env) (widget : Widget) :
    (formattedText env widget).2.filter Call.isOutput = [] := by
  cases h : env.Open (filePath env widget) with
  | error err => rw [formattedText_open_error env widget err h]; rfl
  | ok file => rw [formattedText_open_ok env widget file h]; rfl

theorem formattedText_no_redraw (env : Env) (widget : Widget) :
    (formattedText env widget).2.filter Call.isRedraw = [] := by
  cases h : env.Open (filePath env widget) with
  | error err => rw [formattedText_open_error env widget err h]; rfl
  | ok file => rw [formattedText_open_ok env widget file h]; rfl

theorem plainText_calls (env : Env) (widget : Widget) :
    (plainText env widget).2
      = [Call.Println (filePath env widget ++ lit "\n"), Call.ReadFile (filePath env widget)] := by
  rcases h : ReadFile env (filePath env widget) with ⟨text, _ | err⟩
  · rw [plainText_read_ok env widget text h]
  · rw [plainText_read_error env widget text err h]

theorem display_ends_in_one_redraw (env : Env) (widget : Widget) :
    display env widget
        = (if widget.settings.format then formattedText env widget
            else plainText env widget).2
          ++ [Call.Redraw
                (lit "[green]" ++ env.CurrentSource widget.Sources widget.Idx ++ lit "[white]")
                (env.SigilStr widget.Sources.length widget.Idx widget.rect.2.2.1 ++ lit "\n"
                  ++ (if widget.settings.format then formattedText env widget
                      else plainText env widget).1)
                true]
      ∧ (display env widget).filter Call.isRedraw
        = [Call.Redraw
            (lit "[green]" ++ env.CurrentSource widget.Sources widget.Idx ++ lit "[white]")
            (env.SigilStr widget.Sources.length widget.Idx widget.rect.2.2.1 ++ lit "\n"
              ++ (if widget.settings.format then formattedText env widget
                  else plainText env widget).1)
            true] := by
  refine ⟨rfl, ?_⟩
  unfold display
  cases hformat : widget.settings.format
  · simp [plainText_calls, Call.isRedraw]
  · simp [formattedText_no_redraw, Call.isRedraw]

theorem display_plain_output (env : Env) (widget : Widget)
    (hformat : widget.settings.format = false) :
    (display env widget).filter Call.isOutput
      = [Call.Println (filePath env widget ++ lit "\n"),
          Call.Redraw
            (lit "[green]" ++ env.CurrentSource widget.Sources widget.Idx ++ lit "[white]")
            (env.SigilStr widget.Sources.length widget.Idx widget.rect.2.2.1 ++ lit "\n"
              ++ (plainText env widget).1)
            true] := by
  unfold display
  simp [hformat, plainText_calls, Call.isOutput]

theorem display_formatted_output (env : Env) (widget : Widget)
    (hformat : widget.settings.format = true) :
    (display env widget).filter Call.isOutput
      = [Call.Redraw
            (lit "[green]" ++ env.CurrentSource widget.Sources widget.Idx ++ lit "[white]")
            (env.SigilStr widget.Sources.length widget.Idx widget.rect.2.2.1 ++ lit "\n"
              ++ (formattedText env widget).1)
            true] := by
  unfold display
  simp [hformat, formattedText_no_output, Call.isOutput]

/-- C5 fails when highlighting is off: display on the widget over /tmp/b.txt and
/tmp/a.go does perform one Redraw with the stated title and text, but before it
plainText writes the line "/tmp/b.txt" to standard output, an effect besides the
repaint. With highlighting on, the same widget writes nothing but the repaint. -/
theorem display_plain_writes_stdout :
    display demoEnv plainWidget
        = [Call.Println (lit "/tmp/b.txt\n"),
            Call.ReadFile (lit "/tmp/b.txt"),
            Call.Redraw (lit "[green]/tmp/b.txt[white]") (lit "*_\nhello\n") true]
      ∧ (display demoEnv plainWidget).filter Call.isOutput
        ≠ (display demoEnv plainWidget).filter Call.isRedraw
      ∧ (display demoEnv { plainWidget with settings := ⟨true, []⟩ }).filter Call.isOutput
        = (display demoEnv { plainWidget with settings := ⟨true, []⟩ }).filter Call.isRedraw :=
  ⟨by decide, by decide, by decide⟩

/-! ## The watcher -/

theorem watchEach_eq (env : Env) (sources : List GoString) :
    ∀ watch : Watcher, watchEach env sources watch
      = match (expanded env sources).findSome? env.watchAdd with
        | some err => .error err
        | none => .ok { watch with names := watch.names ++ expanded env sources } := by
  induction sources with
  | nil =>
    intro watch
    simp [watchEach, expanded]
  | cons source rest ih =>
    intro watch
    unfold watchEach
    rcases hexp : env.ExpandHomeDir source with ⟨fullPath, _ | err⟩
    · have hcons : expanded env (source :: rest) = fullPath :: expanded env rest := by
        simp [expanded, hexp]
      rw [hcons]
      cases hadd : env.watchAdd fullPath with
      | some err => simp [List.findSome?, hadd]
      | none =>
        simp only [List.findSome?, hadd]
        rw [ih]
        simp [Watcher.Add]
    · have hcons : expanded env (source :: rest) = expanded env rest := by
        simp [expanded, hexp]
      rw [hcons]
      exact ih watch

theorem eventLoop_events_append (events : List Event) (rest : List Msg) :
    eventLoop (events.map Msg.Event ++ rest)
      = List.replicate events.length Action.display ++ eventLoop rest := by
  induction events with
  | nil => simp
  | cons e es ih => simp [eventLoop, ih, List.replicate_succ]

theorem messages_of_quiet (env : Env) (watch : Watcher) (hops : watch.ops = [Op.Write])
    (quiet : List Event)
    (hquiet : ∀ e ∈ quiet, e.Path ∈ watch.names → e.Op.takesAway = false) :
    watch.messages env quiet
      = (quiet.filter fun e =>
          decide (e.Op = Op.Write ∧ e.Path ∈ watch.names)).map Msg.Event := by
  induction quiet with
  | nil => rfl
  | cons e es ih =>
    have htail := ih fun x hx => hquiet x (List.mem_cons_of_mem _ hx)
    have hhead := hquiet e (List.mem_cons_self _ _)
    unfold Watcher.messages at htail ⊢
    rw [List.filterMap_cons, htail]
    by_cases hreg : e.Path ∈ watch.names
    · have haway := hhead hreg
      by_cases hw : e.Op = Op.Write
      · simp [Watcher.report, Watcher.sends, hreg, hops, hw, Op.takesAway]
      · have hw2 : ¬ Op.Write = e.Op := fun h => hw h.symm
        simp [Watcher.report, Watcher.sends, hreg, haway, hops, hw, hw2]
    · simp [Watcher.report, hreg]

theorem started_watcher (env : Env) (widget : Widget) (watch : Watcher)
    (hstart : watchForFileChanges env widget = .Started watch) :
    watch = ⟨[Op.Write], expanded env widget.Sources⟩ := by
  unfold watchForFileChanges at hstart
  simp only [watchEach_eq] at hstart
  cases hadd : (expanded env widget.Sources).findSome? env.watchAdd with
  | some err => simp [hadd] at hstart
  | none =>
    simp only [hadd] at hstart
    cases hrun : env.watchStart (Millisecond * 100) with
    | some err => simp [hrun] at hstart
    | none =>
      simp only [hrun, Startup.Started.injEq] at hstart
      rw [← hstart]
      simp [Watcher.New, Watcher.FilterOps]

/-- C3, as stated, fails: the watcher is started on /tmp/b.txt and /tmp/a.go;
/tmp/b.txt is written, /tmp/a.go is removed, /tmp/b.txt is written again. The
removal is not passed over: it comes as an error, the goroutine calls
log.Fatalln, and display was called once although two write events happened. -/
theorem removed_source_ends_the_loop :
    watchForFileChanges demoEnv plainWidget = .Started demoWatcher
      ∧ demoWatcher.writes demoRemoved = 2
      ∧ eventLoop (demoWatcher.messages demoEnv demoRemoved)
        = [Action.display, Action.Fatalln demoEnv.ErrWatchedFileDeleted] :=
  ⟨by decide, by decide, by decide⟩

/-- C3, amended: the watcher is started on the expanded sources with the filter
set to write events only. As long as no registered path is removed, renamed or
moved away, the goroutine calls display once for each write to a registered path,
current or not, and for no other event, whether or not the closed signal ever
comes; on the closed signal it returns and whatever arrives afterwards causes no
further display. When a registered path is taken away the watcher reports an
error: the goroutine ends the process in log.Fatalln after the displays for the
writes before it, and no later event is displayed. -/
theorem watcher_displays_writes_until_error (env : Env) (widget : Widget) (watch : Watcher)
    (hstart : watchForFileChanges env widget = .Started watch)
    (quiet : List Event)
    (hquiet : ∀ e ∈ quiet, e.Path ∈ watch.names → e.Op.takesAway = false)
    (gone : Event)
    (hregistered : gone.Path ∈ watch.names)
    (hgone : gone.Op.takesAway = true)
    (later : List Event) (afterwards : List Msg) :
    watch = ⟨[Op.Write], expanded env widget.Sources⟩
      ∧ eventLoop (watch.messages env quiet)
        = List.replicate (watch.writes quiet) Action.display
      ∧ eventLoop (watch.messages env quiet ++ Msg.Closed :: afterwards)
        = List.replicate (watch.writes quiet) Action.display ++ [Action.ret]
      ∧ eventLoop (watch.messages env (quiet ++ gone :: later) ++ afterwards)
        = List.replicate (watch.writes quiet) Action.display
            ++ [Action.Fatalln env.ErrWatchedFileDeleted] := by
  have hwatch := started_watcher env widget watch hstart
  have hops : watch.ops = [Op.Write] := by rw [hwatch]
  have hmsgs := messages_of_quiet env watch hops quiet hquiet
  have hcount : (quiet.filter fun e =>
      decide (e.Op = Op.Write ∧ e.Path ∈ watch.names)).length = watch.writes quiet := by
    rw [Watcher.writes, List.countP_eq_length_filter]
  have hsplit : watch.messages env (quiet ++ gone :: later)
      = watch.messages env quiet
        ++ Msg.Error env.ErrWatchedFileDeleted :: watch.messages env later := by
    simp [Watcher.messages, List.filterMap_append, List.filterMap_cons, Watcher.report,
      hregistered, hgone]
  refine ⟨hwatch, ?_, ?_, ?_⟩
  · have h := eventLoop_events_append
      (quiet.filter fun e => decide (e.Op = Op.Write ∧ e.Path ∈ watch.names)) []
    rw [List.append_nil] at h
    rw [hmsgs, h, hcount]
    simp [eventLoop]
  · rw [hmsgs, eventLoop_events_append, hcount]
    simp [eventLoop]
  · rw [hsplit, hmsgs, List.append_assoc, eventLoop_events_append, hcount]
    simp [eventLoop]

theorem watcher_displays_writes_until_error_witness :
    watchForFileChanges demoEnv plainWidget = .Started demoWatcher
      ∧ (∀ e ∈ demoQuiet, e.Path ∈ demoWatcher.names → e.Op.takesAway = false)
      ∧ (Event.mk .Rename (lit "/tmp/b.txt")).Path ∈ demoWatcher.names
      ∧ (Event.mk .Rename (lit "/tmp/b.txt")).Op.takesAway = true
      ∧ demoWatcher = ⟨[Op.Write], expanded demoEnv plainWidget.Sources⟩
      ∧ eventLoop (demoWatcher.messages demoEnv demoQuiet)
        = List.replicate (demoWatcher.writes demoQuiet) Action.display
      ∧ eventLoop (demoWatcher.messages demoEnv demoQuiet
            ++ Msg.Closed :: [Msg.Event ⟨.Write, lit "/tmp/b.txt"⟩])
        = List.replicate (demoWatcher.writes demoQuiet) Action.display ++ [Action.ret]
      ∧ eventLoop (demoWatcher.messages demoEnv
            (demoQuiet ++ Event.mk .Rename (lit "/tmp/b.txt") :: [⟨.Write, lit "/tmp/a.go"⟩])
            ++ [Msg.Event ⟨.Write, lit "/tmp/b.txt"⟩])
        = List.replicate (demoWatcher.writes demoQuiet) Action.display
            ++ [Action.Fatalln demoEnv.ErrWatchedFileDeleted] :=
  ⟨by decide, by decide, by decide, by decide,
    watcher_displays_writes_until_error demoEnv plainWidget demoWatcher (by decide)
      demoQuiet (by decide) ⟨.Rename, lit "/tmp/b.txt"⟩ (by decide) (by decide)
      [⟨.Write, lit "/tmp/a.go"⟩] [Msg.Event ⟨.Write, lit "/tmp/b.txt"⟩]⟩

/-- C10, as stated, fails: with sources /tmp/gone.txt and /tmp/b.txt both
entries expand, registering the first fails, registering the second would
succeed, and watchForFileChanges ends in log.Fatalln with the error of the first:
the process is terminated and /tmp/b.txt is never registered. -/
theorem watch_add_failure_is_fatal :
    demoEnv.ExpandHomeDir (lit "/tmp/gone.txt") = (lit "/tmp/gone.txt", none)
      ∧ demoEnv.watchAdd (lit "/tmp/gone.txt")
        = some (.pathError (lit "lstat") (lit "/tmp/gone.txt") .ENOENT)
      ∧ demoEnv.ExpandHomeDir (lit "/tmp/b.txt") = (lit "/tmp/b.txt", none)
      ∧ demoEnv.watchAdd (lit "/tmp/b.txt") = none
      ∧ watchForFileChanges demoEnv goneFirstWidget
        = .Fatalln (.pathError (lit "lstat") (lit "/tmp/gone.txt") .ENOENT) :=
  ⟨by decide, by decide, by decide, by decide, by decide⟩

/-- C10, amended: an entry that does not expand is passed over. When every entry
that expands also registers, the watcher is started on exactly the expanded
entries, in configured order, listening for write events. When the registration
of an entry fails, start-up ends in log.Fatalln with the error of the first such
entry, and so does it when Start itself fails. -/
theorem watchForFileChanges_outcome (env : Env) (widget : Widget) :
    watchForFileChanges env widget
      = match (expanded env widget.Sources).findSome? env.watchAdd with
        | some err => .Fatalln err
        | none =>
          match env.watchStart (Millisecond * 100) with
          | some err => .Fatalln err
          | none => .Started ⟨[Op.Write], expanded env widget.Sources⟩ := by
  unfold watchForFileChanges
  simp only [watchEach_eq]
  cases (expanded env widget.Sources).findSome? env.watchAdd with
  | some err => rfl
  | none =>
    cases env.watchStart (Millisecond * 100) with
    | some err => rfl
    | none => simp [Watcher.New, Watcher.FilterOps]

end Textfile
